import Mathlib

/-!
Verification of the task/notification/filtering/persistence core of the
Task-Tracker application (`src/main.py`).

The embedding is shallow:
* calendar dates are proleptic-Gregorian ordinal day numbers, as returned
  by Python's `date.toordinal` (so `date` comparison is integer comparison);
* times of day are hour/minute/second triples (the application never
  produces sub-second times: the dialog's `QTimeEdit` has minute
  granularity and the loader parses `HH:MM:SS` strings);
* `datetime` instants are seconds on the proleptic time line, so that
  `datetime` comparison, `datetime.combine` and `timedelta` arithmetic
  become integer arithmetic;
* `datetime.now()` is passed explicitly as a parameter `now`.
-/

namespace TaskTracker

/-- Calendar dates, as proleptic-Gregorian ordinal day numbers
(Python `date.toordinal`; `0001-01-01` is day 1). -/
abbrev Date := Int

/-- Time of day, as in Python `datetime.time` restricted to whole seconds. -/
structure Time where
  hour : Nat
  minute : Nat
  second : Nat
deriving DecidableEq, Repr

/-- Seconds since midnight. -/
def Time.toSecs (t : Time) : Int :=
  (t.hour : Int) * 3600 + (t.minute : Int) * 60 + (t.second : Int)

/-- Instants (`datetime` values), as seconds on the proleptic time line.
`datetime` values compare chronologically, which is integer comparison here. -/
abbrev DateTime := Int

/-- Python `datetime.combine(d, t)`. -/
def DateTime.combine (d : Date) (t : Time) : DateTime :=
  d * 86400 + t.toSecs

/-- The `Task` entity of `src/main.py` (class `Task`).  Field names follow
the source; `deadline` is the optional date, `deadline_time` the optional
time of day.  `notify_before_minutes` is an `Int` because nothing in the
loader constrains it.  `created_at` is the ISO timestamp string stored at
construction; the core never parses it back, so it stays a `String`. -/
structure Task where
  title : String
  description : String
  priority : String
  deadline : Option Date
  deadline_time : Option Time
  notify_enabled : Bool
  notify_before_minutes : Int
  completed : Bool
  created_at : String
  notified : Bool
deriving DecidableEq, Repr

/-- `Task.get_deadline_datetime` (main.py lines 28-34): combine date and
time; a date alone is completed with `time(23, 59)`; no date gives `None`
(a `time` object alone is ignored). -/
def Task.get_deadline_datetime (t : Task) : Option DateTime :=
  match t.deadline, t.deadline_time with
  | some d, some tm => some (DateTime.combine d tm)
  | some d, none => some (DateTime.combine d ⟨23, 59, 0⟩)
  | none, _ => none

/-- `Task.is_overdue` (main.py lines 36-41): `datetime.now() > deadline_dt`
when a deadline exists and the task is not completed, else `False`. -/
def Task.is_overdue (t : Task) (now : DateTime) : Bool :=
  match t.get_deadline_datetime with
  | some dt => !t.completed && decide (now > dt)
  | none => false

/-- `Task.should_notify` (main.py lines 43-54): gated on `notify_enabled`,
`not completed`, `not notified` and an existing deadline; fires when
`now >= deadline_dt - timedelta(minutes=notify_before_minutes)`. -/
def Task.should_notify (t : Task) (now : DateTime) : Bool :=
  if !t.notify_enabled || t.completed || t.notified then false
  else
    match t.get_deadline_datetime with
    | none => false
    | some dt => decide (now ≥ dt - t.notify_before_minutes * 60)

/-- C1: `is_overdue()` returns true iff a deadline datetime exists, the task
is not completed, and the current time strictly exceeds that deadline; in
particular every completed task is never overdue. -/
theorem is_overdue_iff_deadline_strictly_passed (t : Task) (now : DateTime) :
    (t.is_overdue now = true ↔
      ∃ dt, t.get_deadline_datetime = some dt ∧ t.completed = false ∧ dt < now) ∧
    (t.completed = true → t.is_overdue now = false) := by
  cases h : t.get_deadline_datetime with
  | none =>
      simp [Task.is_overdue, h]
  | some dt =>
      constructor
      · simp [Task.is_overdue, h]
      · intro hc
        simp [Task.is_overdue, h, hc]

/-- Closed instance of C1: a completed task with a long-passed deadline is
not overdue. -/
theorem is_overdue_iff_deadline_strictly_passed_inst :
    Task.is_overdue
      ⟨"pay rent", "", "High", some 738886, some ⟨9, 0, 0⟩,
        false, 30, true, "2024-01-02T00:00:00", false⟩ 63839741400 = false :=
  (is_overdue_iff_deadline_strictly_passed _ 63839741400).2 rfl

/-- C2: `should_notify()` returns true iff `notify_enabled` is true, the
task is not completed, `notified` is false, a deadline datetime exists, and
the current time is at or past the deadline minus `notify_before_minutes`
minutes. -/
theorem should_notify_iff_threshold_reached (t : Task) (now : DateTime) :
    t.should_notify now = true ↔
      t.notify_enabled = true ∧ t.completed = false ∧ t.notified = false ∧
        ∃ dt, t.get_deadline_datetime = some dt ∧
          dt - t.notify_before_minutes * 60 ≤ now := by
  unfold Task.should_notify
  cases h : t.get_deadline_datetime with
  | none => simp [h]
  | some dt =>
      by_cases he : t.notify_enabled <;>
        by_cases hc : t.completed <;>
          by_cases hn : t.notified <;>
            simp [h, he, hc, hn]

/-- Closed instance of C2: a pending task whose notification window has
opened reports `should_notify = true`. -/
theorem should_notify_iff_threshold_reached_inst :
    Task.should_notify
      ⟨"standup", "", "Medium", some 738886, some ⟨9, 0, 0⟩,
        true, 30, false, "2024-01-01T00:00:00", false⟩ 63839781000 = true :=
  (should_notify_iff_threshold_reached _ 63839781000).mpr
    ⟨rfl, rfl, rfl, DateTime.combine 738886 ⟨9, 0, 0⟩, rfl, by decide⟩

/-- C5: `get_deadline_datetime()` combines date and time when both are set,
defaults the time to 23:59:00 when only a date is set, and returns none when
no date is set (a time alone has no effect); with no date, `is_overdue` and
`should_notify` are both false. -/
theorem get_deadline_datetime_spec (t : Task) (now : DateTime) :
    (∀ d tm, t.deadline = some d → t.deadline_time = some tm →
      t.get_deadline_datetime = some (DateTime.combine d tm)) ∧
    (∀ d, t.deadline = some d → t.deadline_time = none →
      t.get_deadline_datetime = some (DateTime.combine d ⟨23, 59, 0⟩)) ∧
    (t.deadline = none →
      t.get_deadline_datetime = none ∧
        t.is_overdue now = false ∧ t.should_notify now = false) := by
  refine ⟨?_, ?_, ?_⟩
  · intro d tm hd htm
    simp [Task.get_deadline_datetime, hd, htm]
  · intro d hd htm
    simp [Task.get_deadline_datetime, hd, htm]
  · intro hd
    have hg : t.get_deadline_datetime = none := by
      simp [Task.get_deadline_datetime, hd]
    refine ⟨hg, ?_, ?_⟩
    · simp [Task.is_overdue, hg]
    · unfold Task.should_notify
      simp [hg]

/-- Closed instance of C5: a task carrying a `deadline_time` but no
`deadline` date has no deadline datetime and is neither overdue nor
notifiable. -/
theorem get_deadline_datetime_spec_inst :
    Task.get_deadline_datetime
        ⟨"groceries", "", "Low", none, some ⟨8, 30, 0⟩,
          true, 30, false, "2024-01-01T00:00:00", false⟩ = none ∧
      Task.is_overdue
        ⟨"groceries", "", "Low", none, some ⟨8, 30, 0⟩,
          true, 30, false, "2024-01-01T00:00:00", false⟩ 63839771400 = false :=
  ⟨((get_deadline_datetime_spec _ 63839771400).2.2 rfl).1,
   ((get_deadline_datetime_spec _ 63839771400).2.2 rfl).2.1⟩

/-! ### Filtering and sorting (`TodoApp.update_task_list`, main.py lines 574-600) -/

/-- The `priority_order` dict of `update_task_list`:
`{"High": 3, "Medium": 2, "Low": 1}.get(t.priority, 2)`. -/
def priority_order (p : String) : Int :=
  if p = "High" then 3 else if p = "Medium" then 2 else if p = "Low" then 1 else 2

/-- Strict comparison of the second sort-key component
`t.get_deadline_datetime() or datetime.max`: a missing deadline stands in
for `datetime.max`, which is strictly above every deadline the application
constructs, so `none` is a maximal sentinel. -/
def dtKeyLT : Option DateTime → Option DateTime → Bool
  | none, _ => false
  | some _, none => true
  | some x, some y => decide (x < y)

/-- Python's ascending lexicographic comparison of the sort-key tuple
`(-priority_order.get(p, 2), deadline or max, title.lower())`, phrased on
the components (the negated first component turns into a flipped
comparison of priorities). -/
def key_le (pa : Int) (da : Option DateTime) (sa : String)
    (pb : Int) (db : Option DateTime) (sb : String) : Bool :=
  if pa = pb then
    if dtKeyLT da db then true
    else if dtKeyLT db da then false
    else decide (sa ≤ sb)
  else decide (pb < pa)

/-- The sort order of `update_task_list`:
`key=lambda t: (-priority_order.get(t.priority, 2), t.get_deadline_datetime() or datetime.max, t.title.lower())`. -/
def task_le (a b : Task) : Bool :=
  key_le (priority_order a.priority) a.get_deadline_datetime a.title.toLower
    (priority_order b.priority) b.get_deadline_datetime b.title.toLower

/-- The filter of `update_task_list` (the `if`/`elif` chain over the
combo-box text, main.py lines 580-592). -/
def keepTask (filter_text : String) (now : DateTime) (t : Task) : Bool :=
  if filter_text = "All" then true
  else if filter_text = "High Priority" ∧ t.priority = "High" then true
  else if filter_text = "Medium Priority" ∧ t.priority = "Medium" then true
  else if filter_text = "Low Priority" ∧ t.priority = "Low" then true
  else if filter_text = "Overdue" ∧ t.is_overdue now = true then true
  else if filter_text = "Completed" ∧ t.completed = true then true
  else false

/-- `update_task_list` restricted to its task-list output: filter by the
combo-box text, then sort.  Python's `list.sort` is a stable sort by the
key tuple; a stable sort with respect to a total preorder is a unique
function, so it is embedded as stable insertion sort over `task_le`. -/
def update_task_list (filter_text : String) (now : DateTime) (tasks : List Task) : List Task :=
  List.insertionSort (fun a b => task_le a b = true)
    (tasks.filter (keepTask filter_text now))

theorem dtKeyLT_trans (a b c : Option DateTime) :
    dtKeyLT a b = true → dtKeyLT b c = true → dtKeyLT a c = true := by
  rcases a with _ | x <;> rcases b with _ | y <;> rcases c with _ | z <;>
    simp [dtKeyLT] <;> intros <;> linarith

theorem dtKeyLT_negtrans (a b c : Option DateTime) :
    dtKeyLT a b = false → dtKeyLT b c = false → dtKeyLT a c = false := by
  rcases a with _ | x <;> rcases b with _ | y <;> rcases c with _ | z <;>
    simp [dtKeyLT] <;> intros <;> linarith

theorem dtKeyLT_lt_of_lt_incomp (a b c : Option DateTime) :
    dtKeyLT a b = true → dtKeyLT b c = false → dtKeyLT c b = false →
      dtKeyLT a c = true := by
  rcases a with _ | x <;> rcases b with _ | y <;> rcases c with _ | z <;>
    simp [dtKeyLT] <;> intros <;> linarith

theorem dtKeyLT_lt_of_incomp_lt (a b c : Option DateTime) :
    dtKeyLT a b = false → dtKeyLT b a = false → dtKeyLT b c = true →
      dtKeyLT a c = true := by
  rcases a with _ | x <;> rcases b with _ | y <;> rcases c with _ | z <;>
    simp [dtKeyLT] <;> intros <;> linarith

theorem key_le_total (pa pb : Int) (da db : Option DateTime) (sa sb : String) :
    key_le pa da sa pb db sb = true ∨ key_le pb db sb pa da sa = true := by
  by_cases hp : pa = pb
  · have hp' : pb = pa := hp.symm
    simp only [key_le, if_pos hp, if_pos hp']
    by_cases h1 : dtKeyLT da db = true
    · left; rw [if_pos h1]
    · by_cases h2 : dtKeyLT db da = true
      · right; rw [if_pos h2]
      · rcases le_total sa sb with h | h
        · left
          rw [if_neg h1, if_neg h2]
          exact decide_eq_true h
        · right
          rw [if_neg h2, if_neg h1]
          exact decide_eq_true h
  · have hp' : ¬ pb = pa := fun h => hp h.symm
    simp only [key_le, if_neg hp, if_neg hp']
    rcases lt_or_gt_of_ne hp with h | h
    · right; exact decide_eq_true h
    · left; exact decide_eq_true h

theorem inner_le_trans (da db dc : Option DateTime) (sa sb sc : String) :
    (if dtKeyLT da db then true
      else if dtKeyLT db da then false else decide (sa ≤ sb)) = true →
    (if dtKeyLT db dc then true
      else if dtKeyLT dc db then false else decide (sb ≤ sc)) = true →
    (if dtKeyLT da dc then true
      else if dtKeyLT dc da then false else decide (sa ≤ sc)) = true := by
  intro hx1 hx2
  by_cases h1 : dtKeyLT da db = true
  · by_cases h2 : dtKeyLT db dc = true
    · rw [if_pos (dtKeyLT_trans da db dc h1 h2)]
    · by_cases h3 : dtKeyLT dc db = true
      · rw [if_neg h2, if_pos h3] at hx2
        exact absurd hx2 (by simp)
      · rw [if_pos (dtKeyLT_lt_of_lt_incomp da db dc h1
          (by simpa using h2) (by simpa using h3))]
  · by_cases h1' : dtKeyLT db da = true
    · rw [if_neg h1, if_pos h1'] at hx1
      exact absurd hx1 (by simp)
    · rw [if_neg h1, if_neg h1'] at hx1
      by_cases h2 : dtKeyLT db dc = true
      · rw [if_pos (dtKeyLT_lt_of_incomp_lt da db dc
          (by simpa using h1) (by simpa using h1') h2)]
      · by_cases h3 : dtKeyLT dc db = true
        · rw [if_neg h2, if_pos h3] at hx2
          exact absurd hx2 (by simp)
        · rw [if_neg h2, if_neg h3] at hx2
          have h5 : dtKeyLT dc da = false := dtKeyLT_negtrans dc db da
            (by simpa using h3) (by simpa using h1')
          by_cases h6 : dtKeyLT da dc = true
          · rw [if_pos h6]
          · rw [if_neg h6, if_neg (by simp [h5])]
            exact decide_eq_true
              (le_trans (of_decide_eq_true hx1) (of_decide_eq_true hx2))

theorem key_le_trans (pa pb pc : Int) (da db dc : Option DateTime)
    (sa sb sc : String) :
    key_le pa da sa pb db sb = true → key_le pb db sb pc dc sc = true →
      key_le pa da sa pc dc sc = true := by
  intro hx1 hx2
  by_cases hab : pa = pb <;> by_cases hbc : pb = pc
  · simp only [key_le, if_pos hab] at hx1
    simp only [key_le, if_pos hbc] at hx2
    simp only [key_le, if_pos (hab.trans hbc)]
    exact inner_le_trans da db dc sa sb sc hx1 hx2
  · simp only [key_le, if_neg hbc] at hx2
    simp only [key_le, hab, if_neg hbc]
    exact hx2
  · simp only [key_le, if_neg hab] at hx1
    simp only [key_le, ← hbc, if_neg hab]
    exact hx1
  · simp only [key_le, if_neg hab] at hx1
    simp only [key_le, if_neg hbc] at hx2
    have h1 : pb < pa := of_decide_eq_true hx1
    have h2 : pc < pb := of_decide_eq_true hx2
    have hac : ¬ pa = pc := by omega
    simp only [key_le, if_neg hac]
    exact decide_eq_true (by omega)

instance : IsTotal Task (fun a b => task_le a b = true) :=
  ⟨fun a b => key_le_total _ _ _ _ _ _⟩

instance : IsTrans Task (fun a b => task_le a b = true) :=
  ⟨fun a b c => key_le_trans _ _ _ _ _ _ _ _ _⟩

/-- The task `{"B", Low, no deadline}` of the spec's sorting example. -/
def exampleB : Task :=
  ⟨"B", "", "Low", none, none, false, 30, false, "2024-01-01T00:00:00", false⟩

/-- The task `{"A", High, 2025-01-01}` of the spec's sorting example
(`739252 = date(2025, 1, 1).toordinal()`). -/
def exampleA : Task :=
  ⟨"A", "", "High", some 739252, none, false, 30, false, "2024-01-01T00:00:00", false⟩

/-- The task `{"C", High, 2024-01-01}` of the spec's sorting example
(`738886 = date(2024, 1, 1).toordinal()`). -/
def exampleC : Task :=
  ⟨"C", "", "High", some 738886, none, false, 30, false, "2024-01-01T00:00:00", false⟩

/-- C3: `update_task_list` returns exactly the tasks kept by the filter
predicate (a permutation of the filtered list), sorted by priority weight
descending (High=3, Medium=2, Low=1, anything else 2), then deadline
datetime ascending with missing deadlines maximal, then lowercased title;
the filter predicates are priority equality, `is_overdue()`, `completed`,
with `All` keeping everything and `Overdue` excluding completed tasks; and
on the spec's concrete example the output order is `[C, A, B]`. -/
theorem update_task_list_spec (filter_text : String) (now : DateTime)
    (tasks : List Task) (t : Task) :
    List.Perm (update_task_list filter_text now tasks)
        (tasks.filter (keepTask filter_text now)) ∧
      List.Sorted (fun a b => task_le a b = true)
        (update_task_list filter_text now tasks) ∧
      keepTask "All" now t = true ∧
      (keepTask "High Priority" now t = true ↔ t.priority = "High") ∧
      (keepTask "Medium Priority" now t = true ↔ t.priority = "Medium") ∧
      (keepTask "Low Priority" now t = true ↔ t.priority = "Low") ∧
      keepTask "Overdue" now t = t.is_overdue now ∧
      keepTask "Completed" now t = t.completed ∧
      (t.completed = true → keepTask "Overdue" now t = false) ∧
      priority_order "High" = 3 ∧ priority_order "Medium" = 2 ∧
      priority_order "Low" = 1 ∧
      (t.priority ≠ "High" → t.priority ≠ "Medium" → t.priority ≠ "Low" →
        priority_order t.priority = 2) ∧
      update_task_list "All" now [exampleB, exampleA, exampleC] =
        [exampleC, exampleA, exampleB] := by
  refine ⟨List.perm_insertionSort _ _, List.sorted_insertionSort _ _,
    ?_, ?_, ?_, ?_, ?_, ?_, ?_, ?_, ?_, ?_, ?_, ?_⟩
  · simp [keepTask]
  · simp [keepTask]
  · simp [keepTask]
  · simp [keepTask]
  · by_cases h : t.is_overdue now = true <;> simp [keepTask, h]
  · by_cases h : t.completed = true <;> simp [keepTask, h]
  · intro hc
    have hov : t.is_overdue now = false := by
      unfold Task.is_overdue
      cases h : t.get_deadline_datetime <;> simp [hc]
    simp [keepTask, hov]
  · rfl
  · rfl
  · rfl
  · intro h1 h2 h3
    simp [priority_order, h1, h2, h3]
  · show List.insertionSort _
        (List.filter (keepTask "All" now) [exampleB, exampleA, exampleC]) = _
    have hf : List.filter (keepTask "All" now) [exampleB, exampleA, exampleC]
        = [exampleB, exampleA, exampleC] := by
      simp [keepTask]
    rw [hf]
    decide

/-- Closed instance of C3: `Completed` keeps a completed task and drops a
pending one, and `Overdue` drops a completed task whose deadline passed. -/
theorem update_task_list_spec_inst :
    keepTask "Overdue" 63839782801
        ⟨"done late", "", "High", some 738886, some ⟨9, 0, 0⟩,
          false, 30, true, "2024-01-01T00:00:00", false⟩ = false :=
  (update_task_list_spec "Overdue" 63839782801 []
    ⟨"done late", "", "High", some 738886, some ⟨9, 0, 0⟩,
      false, 30, true, "2024-01-01T00:00:00", false⟩).2.2.2.2.2.2.2.2.1 rfl

/-! ### Persistence (`Task.to_dict` / `Task.from_dict`,
`TodoApp.save_tasks` / `TodoApp.load_tasks`) -/

/-- The wire value of the `deadline_time` JSON field.  `to_dict` stores
`time.isoformat()`, a bare `HH:MM:SS` string (`bare`).  A legacy file may
instead hold a full `datetime.isoformat()` timestamp (`stamp`), and an
arbitrary file may hold a string that `strptime(s, "%H:%M:%S")` and
`datetime.fromisoformat(s)` both reject (`junk`). -/
inductive TimeStr where
  | bare (t : Time)
  | stamp (d : Date) (t : Time)
  | junk (s : String)
deriving DecidableEq, Repr

/-- A persisted task record (one JSON object of the array in `tasks.json`).
`none` is an absent key; `dict.get` then falls back to its default.  ISO
date strings are identified with the dates they denote
(`fromisoformat(d.isoformat()).date() == d`). -/
structure TaskDict where
  title : Option String := none
  description : Option String := none
  priority : Option String := none
  deadline : Option Date := none
  deadline_time : Option TimeStr := none
  notify_enabled : Option Bool := none
  notify_before_minutes : Option Int := none
  completed : Option Bool := none
  created_at : Option String := none
  notified : Option Bool := none
deriving DecidableEq, Repr

/-- `Task.to_dict` (main.py lines 56-68). -/
def Task.to_dict (t : Task) : TaskDict :=
  { title := some t.title
    description := some t.description
    priority := some t.priority
    deadline := t.deadline
    deadline_time := t.deadline_time.map TimeStr.bare
    notify_enabled := some t.notify_enabled
    notify_before_minutes := some t.notify_before_minutes
    completed := some t.completed
    created_at := some t.created_at
    notified := some t.notified }

/-- The backward-compatible `deadline_time` parse of `from_dict`
(main.py lines 79-92): try `strptime("%H:%M:%S")`, then
`datetime.fromisoformat(...).time()` (which keeps only the time of day),
else `None`. -/
def parse_deadline_time : Option TimeStr → Option Time
  | none => none
  | some (.bare t) => some t
  | some (.stamp _ t) => some t
  | some (.junk _) => none

/-- `Task.from_dict` (main.py lines 70-99).  `nowStr` is the
`datetime.now().isoformat()` used as the default `created_at`. -/
def Task.from_dict (data : TaskDict) (nowStr : String) : Task :=
  { title := data.title.getD ""
    description := data.description.getD ""
    priority := data.priority.getD "Medium"
    deadline := data.deadline
    deadline_time := parse_deadline_time data.deadline_time
    notify_enabled := data.notify_enabled.getD false
    notify_before_minutes := data.notify_before_minutes.getD 30
    completed := data.completed.getD false
    created_at := data.created_at.getD nowStr
    notified := data.notified.getD false }

/-- What `TodoApp.load_tasks` (main.py lines 677-685) finds on disk:
the file is absent, or present but unreadable / not valid JSON, or a JSON
array of records. -/
inductive LoadFile where
  | absent
  | junkFile
  | records (l : List TaskDict)
deriving DecidableEq, Repr

/-- `TodoApp.load_tasks`: an absent file leaves `self.tasks` untouched
(it is `[]` at the only call site, in `__init__`); a read/parse failure is
caught and sets `self.tasks = []`; otherwise every record goes through
`Task.from_dict`. -/
def load_tasks (file : LoadFile) (tasks : List Task) (nowStr : String) :
    List Task :=
  match file with
  | .absent => tasks
  | .junkFile => []
  | .records l => l.map (fun d => Task.from_dict d nowStr)

/-- C4: serialization round-trips: `from_dict(to_dict(t))` reproduces every
field of `t` unchanged, and loading the record list produced by save
reproduces the whole task list. -/
theorem to_dict_from_dict_round_trip (tasks : List Task) (t : Task)
    (nowStr : String) :
    Task.from_dict (Task.to_dict t) nowStr = t ∧
      (tasks.map Task.to_dict).map (fun d => Task.from_dict d nowStr)
        = tasks := by
  have h : ∀ u : Task, Task.from_dict (Task.to_dict u) nowStr = u := by
    intro u
    cases u with
    | mk title description priority deadline deadline_time ne nbm c ca nf =>
        cases deadline_time <;>
          simp [Task.to_dict, Task.from_dict, parse_deadline_time]
  refine ⟨h t, ?_⟩
  rw [List.map_map]
  exact List.map_congr_left (fun u _ => h u) |>.trans (List.map_id tasks)

/-- C7: a missing backing file yields an empty task sequence (the store is
empty at the only load site); a record's `deadline_time` is accepted as a
bare time string or as a full timestamp (keeping only the time of day) and
falls back to `none` on anything else; absent optional fields default to
priority `"Medium"`, `notify_before_minutes = 30` and `false` for the
booleans. -/
theorem load_tasks_permissive (l : List TaskDict) (nowStr : String)
    (d : TaskDict) (tm : Time) (dd : Date) (s : String) :
    load_tasks .absent [] nowStr = [] ∧
      load_tasks (.records l) [] nowStr
        = l.map (fun r => Task.from_dict r nowStr) ∧
      (d.deadline_time = some (.bare tm) →
        (Task.from_dict d nowStr).deadline_time = some tm) ∧
      (d.deadline_time = some (.stamp dd tm) →
        (Task.from_dict d nowStr).deadline_time = some tm) ∧
      (d.deadline_time = some (.junk s) →
        (Task.from_dict d nowStr).deadline_time = none) ∧
      (d.priority = none → (Task.from_dict d nowStr).priority = "Medium") ∧
      (d.notify_before_minutes = none →
        (Task.from_dict d nowStr).notify_before_minutes = 30) ∧
      (d.notify_enabled = none →
        (Task.from_dict d nowStr).notify_enabled = false) ∧
      (d.completed = none → (Task.from_dict d nowStr).completed = false) ∧
      (d.notified = none → (Task.from_dict d nowStr).notified = false) := by
  refine ⟨rfl, rfl, ?_, ?_, ?_, ?_, ?_, ?_, ?_, ?_⟩ <;>
    intro h <;> simp [Task.from_dict, parse_deadline_time, h]

/-- Closed instance of C7: a legacy record whose `deadline_time` is the
full timestamp `2023-05-01T14:30:00` loads with only the time of day
`14:30:00` kept (`738641 = date(2023, 5, 1).toordinal()`). -/
theorem load_tasks_permissive_inst :
    (Task.from_dict
        { title := some "legacy", deadline := some 738641,
          deadline_time := some (.stamp 738641 ⟨14, 30, 0⟩) }
        "2024-01-01T00:00:00").deadline_time = some ⟨14, 30, 0⟩ :=
  (load_tasks_permissive [] "2024-01-01T00:00:00"
      { title := some "legacy", deadline := some 738641,
        deadline_time := some (.stamp 738641 ⟨14, 30, 0⟩) }
      ⟨14, 30, 0⟩ 738641 "").2.2.2.1 rfl

/-! ### Dialog validation and store mutations -/

/-- The validated payload returned by `TaskDialog.get_task_data`
(main.py lines 273-281): the dialog always supplies a concrete deadline
date and time. -/
structure TaskData where
  title : String
  description : String
  priority : String
  deadline : Date
  deadline_time : Time
  notify_enabled : Bool
  notify_before_minutes : Int
deriving DecidableEq, Repr

/-- The raw widget state of a `TaskDialog` when OK is pressed. -/
structure DialogState where
  title_text : String
  description_text : String
  priority_choice : String
  deadline_date : Date
  deadline_time_choice : Time
  notify_checked : Bool
  notify_choice : String
deriving DecidableEq, Repr

/-- The `timing_map` dict of `get_task_data` (main.py lines 253-257). -/
def timing_map (s : String) : Option Int :=
  if s = "5 minutes" then some 5
  else if s = "15 minutes" then some 15
  else if s = "30 minutes" then some 30
  else if s = "1 hour" then some 60
  else if s = "2 hours" then some 120
  else if s = "4 hours" then some 240
  else if s = "1 day" then some 1440
  else if s = "2 days" then some 2880
  else if s = "1 week" then some 10080
  else none

/-- Python `str.strip()`: remove leading and trailing whitespace. -/
def pyStrip (s : String) : String :=
  ⟨((s.data.dropWhile Char.isWhitespace).reverse.dropWhile
      Char.isWhitespace).reverse⟩

/-- `TaskDialog.get_task_data` (main.py lines 242-281): strip the title,
reject an empty title, reject a combined deadline that is not strictly in
the future, and map the notify combo text through `timing_map` with
default 30. -/
def get_task_data (s : DialogState) (now : DateTime) : Option TaskData :=
  let title := pyStrip s.title_text
  let nbm := (timing_map s.notify_choice).getD 30
  if title = "" then none
  else if DateTime.combine s.deadline_date s.deadline_time_choice ≤ now then none
  else some
    { title := title
      description := pyStrip s.description_text
      priority := s.priority_choice
      deadline := s.deadline_date
      deadline_time := s.deadline_time_choice
      notify_enabled := s.notify_checked
      notify_before_minutes := nbm }

/-- `Task(**task_data)` in `TodoApp.add_task` (main.py line 464): the
constructor defaults give `completed = False`, `created_at = now`,
`notified = False`. -/
def task_new (d : TaskData) (nowStr : String) : Task :=
  { title := d.title
    description := d.description
    priority := d.priority
    deadline := some d.deadline
    deadline_time := some d.deadline_time
    notify_enabled := d.notify_enabled
    notify_before_minutes := d.notify_before_minutes
    completed := false
    created_at := nowStr
    notified := false }

/-- `TodoApp.add_task` (main.py lines 459-467): append the new task. -/
def add_task (tasks : List Task) (d : TaskData) (nowStr : String) :
    List Task :=
  tasks ++ [task_new d nowStr]

/-- The field assignments of `TodoApp.edit_task` (main.py lines 477-483):
the selected task is mutated in place; `completed`, `created_at` and
`notified` are not touched. -/
def edit_task_apply (t : Task) (d : TaskData) : Task :=
  { t with
    title := d.title
    description := d.description
    priority := d.priority
    deadline := some d.deadline
    deadline_time := some d.deadline_time
    notify_enabled := d.notify_enabled
    notify_before_minutes := d.notify_before_minutes }

/-- `TodoApp.edit_task` on the task list: apply the dialog payload to the
selected index, if any. -/
def edit_task (tasks : List Task) (i : Nat) (d : TaskData) : List Task :=
  match tasks[i]? with
  | none => tasks
  | some t => tasks.set i (edit_task_apply t d)

/-- The serialized document written by `TodoApp.save_tasks`:
`[task.to_dict() for task in self.tasks]`. -/
def save_doc (tasks : List Task) : List TaskDict :=
  tasks.map Task.to_dict

/-- `TodoApp.toggle_task_completion` (main.py lines 507-520): flip the
selected task's `completed`, then `save_tasks`.  The second component is
the document written by that save (`none` when no item is selected and
nothing happens). -/
def toggle_task_completion (tasks : List Task) (i : Nat) :
    List Task × Option (List TaskDict) :=
  match tasks[i]? with
  | none => (tasks, none)
  | some t =>
      let ts := tasks.set i { t with completed := !t.completed }
      (ts, some (save_doc ts))

/-- One element of the sweep in `TodoApp.check_overdue_and_notifications`
(main.py lines 648-652): a task for which `should_notify()` holds gets
`notified = True`; others are untouched. -/
def sweep_task (now : DateTime) (t : Task) : Task :=
  if t.should_notify now then { t with notified := true } else t

/-- The notification sweep of `TodoApp.check_overdue_and_notifications`:
the updated task list, paired with the tasks for which a reminder signal
was emitted (`show_notification`), in collection iteration order. -/
def check_overdue_and_notifications (now : DateTime) (tasks : List Task) :
    List Task × List Task :=
  (tasks.map (sweep_task now), tasks.filter (fun t => t.should_notify now))

/-- C6: `notified = true` is never reset by the sweep, a completion toggle,
or an edit (even one changing the deadline); a notified task can never
satisfy `should_notify` again; and the sweep latches `notified` on exactly
the tasks for which `should_notify()` held, which are exactly the tasks
signalled. -/
theorem notified_latch_permanent (now : DateTime) (t : Task) (d : TaskData)
    (tasks : List Task) (i : Nat) :
    (t.notified = true → t.should_notify now = false) ∧
    (sweep_task now t).notified = (t.notified || t.should_notify now) ∧
    (t.notified = true → (sweep_task now t).notified = true) ∧
    (edit_task_apply t d).notified = t.notified ∧
    (t.notified = true → (edit_task_apply t d).notified = true) ∧
    (toggle_task_completion tasks i).1.map Task.notified
      = tasks.map Task.notified ∧
    (check_overdue_and_notifications now tasks).1.map Task.notified
      = tasks.map (fun u => u.notified || u.should_notify now) ∧
    (check_overdue_and_notifications now tasks).2
      = tasks.filter (fun u => u.should_notify now) := by
  have hsn : t.notified = true → t.should_notify now = false := by
    intro hn
    unfold Task.should_notify
    simp [hn]
  have hsw : ∀ u : Task,
      (sweep_task now u).notified = (u.notified || u.should_notify now) := by
    intro u
    unfold sweep_task
    by_cases h : u.should_notify now = true
    · have hu : u.notified = true → u.should_notify now = false := by
        intro hn
        unfold Task.should_notify
        simp [hn]
      rcases hn : u.notified with _ | _
      · simp [h, hn]
      · rw [hu hn] at h
        simp at h
    · simp [h]
  refine ⟨hsn, hsw t, ?_, rfl, fun h => h, ?_, ?_, rfl⟩
  · intro hn
    rw [hsw t, hn]
    rfl
  · unfold toggle_task_completion
    cases hi : tasks[i]? with
    | none => rfl
    | some u =>
        have hu : ({ u with completed := !u.completed } : Task).notified
            = u.notified := rfl
        simp only [List.map_set, hu]
        apply List.ext_getElem?
        intro j
        rcases eq_or_ne i j with hj | hj
        · subst hj
          have hlt : i < (tasks.map Task.notified).length := by
            rw [List.length_map]
            exact (List.getElem?_eq_some_iff.mp hi).1
          rw [List.getElem?_set_self hlt, List.getElem?_map, hi]
          rfl
        · rw [List.getElem?_set_ne hj]
  · unfold check_overdue_and_notifications
    rw [List.map_map]
    exact List.map_congr_left (fun u _ => hsw u)

/-- Closed instance of C6: a task with `notified = true` can never satisfy
`should_notify` again. -/
theorem notified_latch_permanent_inst :
    Task.should_notify
      ⟨"already notified", "", "High", some 738886, some ⟨9, 0, 0⟩,
        true, 30, false, "2024-01-01T00:00:00", true⟩ 63839781000 = false :=
  (notified_latch_permanent 63839781000
      ⟨"already notified", "", "High", some 738886, some ⟨9, 0, 0⟩,
        true, 30, false, "2024-01-01T00:00:00", true⟩
      ⟨"t", "", "High", 738886, ⟨9, 0, 0⟩, false, 30⟩ [] 0).1 rfl

/-- C10: toggling completion flips exactly the selected task's `completed`
field, leaves its nine other fields and every other task unchanged, and
the flipped list is persisted by a save before the operation finishes. -/
theorem toggle_task_completion_frame (tasks : List Task) (i : Nat)
    (h : i < tasks.length) :
    (toggle_task_completion tasks i).1.length = tasks.length ∧
    (∃ t u, tasks[i]? = some t ∧
      (toggle_task_completion tasks i).1[i]? = some u ∧
      u.completed = !t.completed ∧ u.title = t.title ∧
      u.description = t.description ∧ u.priority = t.priority ∧
      u.deadline = t.deadline ∧ u.deadline_time = t.deadline_time ∧
      u.notify_enabled = t.notify_enabled ∧
      u.notify_before_minutes = t.notify_before_minutes ∧
      u.created_at = t.created_at ∧ u.notified = t.notified) ∧
    (∀ j, j ≠ i → (toggle_task_completion tasks i).1[j]? = tasks[j]?) ∧
    (toggle_task_completion tasks i).2
      = some (save_doc (toggle_task_completion tasks i).1) := by
  have hi : tasks[i]? = some tasks[i] := by
    rw [List.getElem?_eq_some_iff]
    exact ⟨h, rfl⟩
  refine ⟨?_, ?_, ?_, ?_⟩
  · unfold toggle_task_completion
    rw [hi]
    exact List.length_set tasks i _
  · refine ⟨tasks[i], { tasks[i] with completed := !(tasks[i].completed) },
      hi, ?_, rfl, rfl, rfl, rfl, rfl, rfl, rfl, rfl, rfl, rfl⟩
    show (toggle_task_completion tasks i).1[i]? = _
    unfold toggle_task_completion
    rw [hi]
    exact List.getElem?_set_self (by simpa using h)
  · intro j hj
    unfold toggle_task_completion
    rw [hi]
    exact List.getElem?_set_ne (Ne.symm hj)
  · unfold toggle_task_completion
    rw [hi]

/-- Closed instance of C10: toggling the only task of a one-task store
saves the flipped list. -/
theorem toggle_task_completion_frame_inst :
    (toggle_task_completion [exampleB] 0).2
      = some (save_doc (toggle_task_completion [exampleB] 0).1) :=
  (toggle_task_completion_frame [exampleB] 0 (by decide)).2.2.2

/-! ### Saving (`TodoApp.save_tasks`, main.py lines 669-675) -/

/-- The backing file as `TodoApp.save_tasks` can leave it.  The records of
a document stand for its JSON text.  `open(self.data_file, "w")` truncates
the file before `json.dump` streams the document, so an IOError in the
middle of the dump leaves a truncated prefix of the NEW text on disk:
`complete recs` is a whole document, `truncated recs k` a write of the
document `recs` interrupted after `k` units of output. -/
inductive FileData where
  | complete (recs : List TaskDict)
  | truncated (recs : List TaskDict) (k : Nat)
deriving DecidableEq, Repr

/-- `TodoApp.save_tasks`: serialize every task with `to_dict`, truncate the
backing file and write the document.  `failAt = some k` injects an IOError
after `k` units of the dump; the `except` handler catches it, shows an
error dialog (third component `true`) and leaves `self.tasks` untouched. -/
def save_tasks (tasks : List Task) (failAt : Option Nat) :
    List Task × FileData × Bool :=
  match failAt with
  | none => (tasks, .complete (save_doc tasks), false)
  | some k => (tasks, .truncated (save_doc tasks) k, true)

/-- The record the backing file held before the failing save of the C8
counterexample. -/
def priorTask : Task :=
  ⟨"old", "", "Medium", none, none, false, 30, false,
    "2024-01-01T00:00:00", false⟩

/-- The task list being saved when the write fails in the C8
counterexample. -/
def savedTask : Task :=
  ⟨"new", "", "High", some 738886, none, false, 30, false,
    "2024-01-02T00:00:00", false⟩

/-- C8 as stated fails on the code: the rewrite is truncate-then-write,
not atomic, so a save whose write fails immediately after `open(..., "w")`
leaves a file holding neither the previous contents nor the complete new
document. -/
theorem save_tasks_not_atomic :
    (save_tasks [savedTask] (some 0)).2.1
        ≠ FileData.complete (save_doc [priorTask]) ∧
      (save_tasks [savedTask] (some 0)).2.1
        ≠ FileData.complete (save_doc [savedTask]) := by
  constructor <;> decide

/-- C8 amended: `save_tasks` serializes the full task list to a JSON
document and rewrites the backing file by truncating then writing (not
atomically: a failed write leaves a truncated prefix of the new document);
on write failure the error is surfaced to the user and the in-memory task
list is left unchanged — the mutation is retained, not rolled back. -/
theorem save_tasks_spec (tasks : List Task) (failAt : Option Nat) (k : Nat) :
    (save_tasks tasks failAt).1 = tasks ∧
      (save_tasks tasks none).2.1
        = FileData.complete (tasks.map Task.to_dict) ∧
      (save_tasks tasks none).2.2 = false ∧
      (save_tasks tasks (some k)).2.2 = true ∧
      (save_tasks tasks (some k)).2.1
        = FileData.truncated (tasks.map Task.to_dict) k := by
  refine ⟨?_, rfl, rfl, rfl, rfl⟩
  cases failAt <;> rfl

/-! ### Store-wide field constraints -/

/-- The values of the dialog's `timing_map` — the allowed
`notify_before_minutes` choices. -/
def allowed_notify_minutes : List Int :=
  [5, 15, 30, 60, 120, 240, 1440, 2880, 10080]

/-- C9 as stated fails on the code: `Task.from_dict` performs no
validation, so a persisted record with an empty title and
`notify_before_minutes = 7` enters the store verbatim when loaded. -/
theorem store_constraints_counterexample :
    (List.all
        (load_tasks
          (.records [{ title := some "", notify_before_minutes := some 7 }])
          [] "2024-01-01T00:00:00")
        (fun u => decide (u.title ≠ "") &&
          allowed_notify_minutes.contains u.notify_before_minutes))
      = false := by
  decide

theorem timing_map_allowed (s : String) :
    allowed_notify_minutes.contains ((timing_map s).getD 30) = true := by
  unfold timing_map
  repeat' split
  all_goals decide

/-- C9 amended: tasks entering the store through the dialog — form
creation and edit — satisfy the data-model constraints: `get_task_data`
never yields an empty title nor a `notify_before_minutes` outside the
allowed set, and `task_new` / `edit_task_apply` copy those fields
verbatim; tasks loaded from disk are not validated and may violate both. -/
theorem dialog_task_constraints (s : DialogState) (now : DateTime)
    (d : TaskData) (h : get_task_data s now = some d)
    (nowStr : String) (t : Task) :
    d.title ≠ "" ∧
      allowed_notify_minutes.contains d.notify_before_minutes = true ∧
      (task_new d nowStr).title ≠ "" ∧
      allowed_notify_minutes.contains
        (task_new d nowStr).notify_before_minutes = true ∧
      (edit_task_apply t d).title ≠ "" ∧
      allowed_notify_minutes.contains
        (edit_task_apply t d).notify_before_minutes = true := by
  simp only [get_task_data] at h
  by_cases h1 : pyStrip s.title_text = ""
  · rw [if_pos h1] at h
    exact absurd h (by simp)
  · rw [if_neg h1] at h
    by_cases h2 : DateTime.combine s.deadline_date s.deadline_time_choice ≤ now
    · rw [if_pos h2] at h
      exact absurd h (by simp)
    · rw [if_neg h2] at h
      have hd := Option.some.inj h
      subst hd
      exact ⟨h1, timing_map_allowed s.notify_choice, h1,
        timing_map_allowed s.notify_choice, h1,
        timing_map_allowed s.notify_choice⟩

/-- Closed instance of the amended C9: a concrete accepted dialog payload
has a non-empty title and an allowed `notify_before_minutes`. -/
theorem dialog_task_constraints_inst :
    (⟨"Buy milk", "weekly", "High", 739252, ⟨9, 0, 0⟩, true, 60⟩
        : TaskData).title ≠ "" ∧
      allowed_notify_minutes.contains
        (⟨"Buy milk", "weekly", "High", 739252, ⟨9, 0, 0⟩, true, 60⟩
          : TaskData).notify_before_minutes = true :=
  have h := dialog_task_constraints
    ⟨"Buy milk", "weekly", "High", 739252, ⟨9, 0, 0⟩, true, "1 hour"⟩ 0
    ⟨"Buy milk", "weekly", "High", 739252, ⟨9, 0, 0⟩, true, 60⟩
    (by decide) "2024-01-01T00:00:00"
    ⟨"x", "", "Low", none, none, false, 30, false, "", false⟩
  ⟨h.1, h.2.1⟩

end TaskTracker
